import Mathlib

/-!
Verification of the Caribbean-Affiliation-Script repository.

This file shallowly embeds the affiliation-resolution pipeline of the
repository (`auto.py`, `doi_search.py`, `title_search.py`) in Lean 4 and
proves or refutes the specified properties.  External HTTP traffic is
modelled by an oracle (`Net`) mapping each request to a response value;
every network call a resolver makes is also recorded in an explicit call
trace, so call-count properties become statements about the trace.
-/

/-! ## String utilities mirroring the Python primitives -/

/-- Lower-casing of a character as Python `str.lower` performs it on the
character repertoire appearing in this program: ASCII letters and the
Latin-1 uppercase range (accented letters of the university allow-lists). -/
def pyLowerChar (c : Char) : Char :=
  if 'A' ≤ c ∧ c ≤ 'Z' then Char.ofNat (c.toNat + 32)
  else if 0xC0 ≤ c.toNat ∧ c.toNat ≤ 0xDE ∧ c.toNat ≠ 0xD7 then Char.ofNat (c.toNat + 32)
  else c

/-- Python `s.lower()`. -/
def pyLower (s : String) : String :=
  ⟨s.data.map pyLowerChar⟩

/-- Whether `needle` occurs at the head of `hay` (list of characters). -/
def leadsList : List Char → List Char → Bool
  | [], _ => true
  | _ :: _, [] => false
  | a :: as, b :: bs => (a == b) && leadsList as bs

/-- Whether `needle` occurs contiguously anywhere inside `hay`;
models Python `needle in hay` for strings. -/
def occursIn (needle hay : List Char) : Bool :=
  leadsList needle hay ||
    match hay with
    | [] => false
    | _ :: t => occursIn needle t

/-- Python `needle.lower() in hay.lower()`: case-insensitive substring test. -/
def pyContains (hay needle : String) : Bool :=
  occursIn (pyLower needle).data (pyLower hay).data

/-- Python `s.rstrip(cs)`: drop the trailing characters of `s` that belong
to `cs`. -/
def pyRstrip (s : String) (cs : List Char) : String :=
  ⟨(s.data.reverse.dropWhile (fun c => cs.contains c)).reverse⟩

/-- DOI normalization `doi.rstrip(".,);")` shared by `auto.py` and
`doi_search.py`. -/
def cleanDoi (s : String) : String :=
  pyRstrip s ['.', ',', ')', ';']

/-- Python `s.strip()`: drop leading and trailing whitespace (the ASCII
whitespace repertoire relevant to spreadsheet cells). -/
def pyStrip (s : String) : String :=
  ⟨((s.data.dropWhile Char.isWhitespace).reverse.dropWhile Char.isWhitespace).reverse⟩

/-- Keep a string only when it is non-empty (Python truthiness of `str`). -/
def strOpt (s : String) : Option String :=
  if s = "" then none else some s

/-- Boolean lexicographic comparison of character lists by code point. -/
def listLeCh : List Char → List Char → Bool
  | [], _ => true
  | _ :: _, [] => false
  | a :: as, b :: bs =>
      if a.toNat = b.toNat then listLeCh as bs else decide (a.toNat < b.toNat)

/-- Python string comparison `s <= t`: lexicographic by code point. -/
def pyLe (s t : String) : Bool :=
  listLeCh s.data t.data

/-- The ordering relation used to model Python `sorted` on strings. -/
def pyStrLe (s t : String) : Prop :=
  pyLe s t = true

/-- Unfolding equation for `listLeCh` on two cons cells. -/
theorem listLeCh_cons_cons (a b : Char) (as bs : List Char) :
    listLeCh (a :: as) (b :: bs)
      = if a.toNat = b.toNat then listLeCh as bs else decide (a.toNat < b.toNat) := rfl

/-- Totality of the code-point lexicographic comparison. -/
theorem listLeCh_total (as bs : List Char) :
    listLeCh as bs = true ∨ listLeCh bs as = true := by
  induction as generalizing bs with
  | nil => exact Or.inl rfl
  | cons a as ih =>
      cases bs with
      | nil => exact Or.inr rfl
      | cons b bs =>
          rw [listLeCh_cons_cons, listLeCh_cons_cons]
          by_cases h : a.toNat = b.toNat
          · rw [if_pos h, if_pos h.symm]
            exact ih bs
          · rw [if_neg h, if_neg (fun e => h e.symm)]
            rcases Nat.lt_or_ge a.toNat b.toNat with hlt | hge
            · exact Or.inl (by simpa using hlt)
            · refine Or.inr ?_
              simp only [decide_eq_true_eq]
              omega

/-- Transitivity of the code-point lexicographic comparison. -/
theorem listLeCh_trans (as bs cs : List Char) :
    listLeCh as bs = true → listLeCh bs cs = true → listLeCh as cs = true := by
  induction as generalizing bs cs with
  | nil => intro _ _; rfl
  | cons a as ih =>
      intro h1 h2
      cases bs with
      | nil =>
          rw [show listLeCh (a :: as) ([] : List Char) = false from rfl] at h1
          exact Bool.noConfusion h1
      | cons b bs =>
          cases cs with
          | nil =>
              rw [show listLeCh (b :: bs) ([] : List Char) = false from rfl] at h2
              exact Bool.noConfusion h2
          | cons c cs =>
              rw [listLeCh_cons_cons] at h1 h2 ⊢
              by_cases hab : a.toNat = b.toNat <;> by_cases hbc : b.toNat = c.toNat
              · rw [if_pos hab] at h1
                rw [if_pos hbc] at h2
                rw [if_pos (hab.trans hbc)]
                exact ih bs cs h1 h2
              · rw [if_pos hab] at h1
                rw [if_neg hbc] at h2
                rw [hab, if_neg hbc]
                exact h2
              · rw [if_neg hab] at h1
                rw [if_pos hbc] at h2
                rw [← hbc, if_neg hab]
                exact h1
              · rw [if_neg hab] at h1
                rw [if_neg hbc] at h2
                simp only [decide_eq_true_eq] at h1 h2
                rw [if_neg (by omega)]
                simp only [decide_eq_true_eq]
                omega

instance : DecidableRel pyStrLe :=
  fun s t => inferInstanceAs (Decidable (pyLe s t = true))

instance : IsTotal String pyStrLe :=
  ⟨fun s t => listLeCh_total s.data t.data⟩

instance : IsTrans String pyStrLe :=
  ⟨fun s t u => listLeCh_trans s.data t.data u.data⟩

/-- Python `sorted(set(l))` for strings: the sorted (code-point
lexicographic, as Python compares strings) list of the distinct elements
of `l`; the result depends only on the set of elements, so the dedup
traversal order is irrelevant. -/
def pySortedSet (l : List String) : List String :=
  List.insertionSort pyStrLe l.dedup

/-! ## Spreadsheet cells and rows -/

/-- One spreadsheet cell: either a missing value (pandas `NaN`) or a string. -/
inductive Cell where
  | na : Cell
  | str : String → Cell
deriving DecidableEq

/-- One input row, exposing the `DOI` and `Title` columns. -/
structure Row where
  DOI : Cell
  Title : Cell
deriving DecidableEq

/-! ## External world: JSON payload shapes and the HTTP oracle -/

/-- Outcome of one HTTP request: a raised exception (connection error,
timeout), or a response with a status code and a body.  The body is the
parsed JSON payload; `none` at the payload position models a body on which
`r.json()` raises (malformed JSON). -/
inductive HttpResp (α : Type) where
  | exn : HttpResp α
  | ok : Nat → α → HttpResp α
deriving DecidableEq

/-- One institution entry of an OpenAlex authorship:
`inst.get("display_name")` and `inst.get("country")`. -/
structure OAInstitution where
  display_name : Option String
  country : Option String
deriving DecidableEq

/-- One OpenAlex authorship: `author["author"]["display_name"]` (accessed
unconditionally by the code) and `author.get("institutions", [])`. -/
structure OAAuthorship where
  author_display_name : String
  institutions : List OAInstitution
deriving DecidableEq

/-- An OpenAlex work object.  `nonempty` records whether the JSON dict has
at least one key, i.e. its Python truthiness, which `process_row` tests
with `if work:`. -/
structure OpenAlexWork where
  nonempty : Bool
  display_name : Option String
  canonical_url : Option String
  authorships : List OAAuthorship
deriving DecidableEq

/-- One Crossref affiliation entry: `aff.get("name", "")`. -/
structure CRAffiliation where
  name : Option String
deriving DecidableEq

/-- One Crossref author entry: `author.get("given","")`,
`author.get("family","")`, `author.get("affiliation", [])`. -/
structure CRAuthor where
  given : Option String
  family : Option String
  affiliation : List CRAffiliation
deriving DecidableEq

/-- A Crossref work (the value of the `message` key).  `nonempty` is its
Python truthiness as a dict. -/
structure CrossrefWork where
  nonempty : Bool
  title : List String
  DOI : Option String
  author : List CRAuthor
deriving DecidableEq

/-- Top-level Crossref response body: `r.json().get("message")`. -/
structure CrossrefResponse where
  message : Option CrossrefWork
deriving DecidableEq

/-- OpenAlex search response body: `r.json().get("results", [])`. -/
structure SearchBody where
  results : List OpenAlexWork
deriving DecidableEq

/-- The network oracle: what each HTTP request of the pipeline returns.
One field per distinct endpoint used by the scripts. -/
structure Net where
  openalexDoi : String → HttpResp (Option OpenAlexWork)
  crossrefDoi : String → HttpResp (Option CrossrefResponse)
  openalexSearch : String → HttpResp (Option SearchBody)

/-- A record of one network call made by a resolver. -/
inductive Call where
  | openalexDoi : String → Call
  | crossrefDoi : String → Call
  | openalexTitle : String → Call
deriving DecidableEq

/-! ## Source adapters (`fetch_*` / `search_by_title`) -/

/-- Python truthiness filter for an optional OpenAlex work: `None` and the
empty dict are falsy. -/
def truthyWork : Option OpenAlexWork → Option OpenAlexWork
  | none => none
  | some w => if w.nonempty then some w else none

/-- Python truthiness filter for an optional Crossref work. -/
def truthyCross : Option CrossrefWork → Option CrossrefWork
  | none => none
  | some w => if w.nonempty then some w else none

/-- Embeds `fetch_openalex_by_doi` (identical in `auto.py` and
`doi_search.py`): exception → `None`; non-200 status → `None`; otherwise
the parsed JSON (whose parse failure, also caught, is the `none` body). -/
def fetch_openalex_by_doi (net : Net) (doi : String) : Option OpenAlexWork :=
  match net.openalexDoi doi with
  | HttpResp.exn => none
  | HttpResp.ok status body => if status ≠ 200 then none else body

/-- Embeds `fetch_crossref_by_doi`: exception → `None`; non-200 → `None`;
otherwise `r.json().get("message")`. -/
def fetch_crossref_by_doi (net : Net) (doi : String) : Option CrossrefWork :=
  match net.crossrefDoi doi with
  | HttpResp.exn => none
  | HttpResp.ok status body => if status ≠ 200 then none else body.bind (fun b => b.message)

/-- Embeds `search_by_title` of `title_search.py`: on a 200 response take
the first entry of `results` if any; every failure path returns `None`. -/
def search_by_title (net : Net) (title : String) : Option OpenAlexWork :=
  match net.openalexSearch title with
  | HttpResp.exn => none
  | HttpResp.ok status body =>
      if status = 200 then
        match body with
        | none => none
        | some b => b.results.head?
      else none

/-! ## Field harvesting shared by the extract functions -/

/-- Author display names of the first 10 authorships
(`work.get("authorships", [])[:10]`). -/
def oaAuthorsOf (work : OpenAlexWork) : List String :=
  (work.authorships.take 10).map (fun a => a.author_display_name)

/-- All institution entries of the first 10 authorships, in program order. -/
def oaInstsRaw (work : OpenAlexWork) : List OAInstitution :=
  (work.authorships.take 10).flatMap (fun a => a.institutions)

/-- The non-empty institution display names harvested by
`extract_openalex`. -/
def oaInstitutionsOf (work : OpenAlexWork) : List String :=
  (oaInstsRaw work).filterMap (fun i => strOpt (i.display_name.getD ""))

/-- The non-empty country strings harvested by `extract_openalex`. -/
def oaCountriesOf (work : OpenAlexWork) : List String :=
  (oaInstsRaw work).filterMap (fun i => strOpt (i.country.getD ""))

/-- The `is_caribbean` flag computed by `extract_openalex`: some
institution (with a non-empty name) contains a university of the
allow-list case-insensitively, or some non-empty country string is a
member of the country allow-list. -/
def oaFlag (unis cAllow : List String) (work : OpenAlexWork) : Bool :=
  ((oaInstsRaw work).any (fun i =>
      let n := i.display_name.getD ""
      n ≠ "" && unis.any (fun u => pyContains n u))) ||
  ((oaInstsRaw work).any (fun i =>
      let c := i.country.getD ""
      c ≠ "" && cAllow.contains c))

/-- Crossref author display names: `"{given} {family}".strip()`, kept when
non-empty, over the first 10 author entries. -/
def crAuthorsOf (work : CrossrefWork) : List String :=
  (work.author.take 10).filterMap (fun a =>
    strOpt (pyStrip ((a.given.getD "") ++ " " ++ (a.family.getD ""))))

/-- The non-empty affiliation names of the first 10 Crossref authors. -/
def crAffNames (work : CrossrefWork) : List String :=
  ((work.author.take 10).flatMap (fun a => a.affiliation)).filterMap
    (fun aff => strOpt (aff.name.getD ""))

/-- The country strings `extract_crossref` derives: every allow-list
country whose name occurs case-insensitively inside some affiliation
string (Crossref affiliations carry no separate country field). -/
def crCountriesOf (cAllow : List String) (work : CrossrefWork) : List String :=
  (crAffNames work).flatMap (fun n => cAllow.filter (fun c => pyContains n c))

/-- The `is_caribbean` flag computed by `extract_crossref`. -/
def crFlag (unis cAllow : List String) (work : CrossrefWork) : Bool :=
  ((crAffNames work).any (fun n => unis.any (fun u => pyContains n u))) ||
  ((crAffNames work).any (fun n => cAllow.any (fun c => pyContains n c)))

/-! ## Normalized per-row results -/

/-- The tuple returned by `extract_openalex` / `extract_crossref` and, per
row, by `process_row`. -/
structure RowResult where
  resolved_title : String
  authors : String
  universities : String
  countries : String
  caribbean : String
  url : String
deriving DecidableEq

/-- The manual-review sentinel result `("", "", "", "",
"Needs Manual Verification", "")`. -/
def manualResult : RowResult :=
  ⟨"", "", "", "", "Needs Manual Verification", ""⟩

/-- Core of `extract_openalex`, parameterized by the file's static
allow-lists (the two scripts differ only in those constants). -/
def extractOpenalexCore (unis cAllow : List String) (work : OpenAlexWork) : RowResult :=
  ⟨work.display_name.getD "",
   " | ".intercalate (pySortedSet (oaAuthorsOf work)),
   " | ".intercalate (pySortedSet (oaInstitutionsOf work)),
   " | ".intercalate (pySortedSet (oaCountriesOf work)),
   if oaFlag unis cAllow work then "Yes" else "No",
   work.canonical_url.getD ""⟩

/-- Core of `extract_crossref`, parameterized by the allow-lists and by the
URL string the caller computes. -/
def extractCrossrefCore (unis cAllow : List String) (url : String) (work : CrossrefWork) : RowResult :=
  ⟨work.title.headD "",
   " | ".intercalate (pySortedSet (crAuthorsOf work)),
   " | ".intercalate (pySortedSet (crAffNames work)),
   " | ".intercalate (pySortedSet (crCountriesOf cAllow work)),
   if crFlag unis cAllow work then "Yes" else "No",
   url⟩

/-! ## The spec-level Matcher -/

/-- Modelled from the spec (section 4.1), for comparison with the
extractors: `isCaribbean(institutions, countries)` returns true iff some
country string exactly equals a member of the country allow-list, or some
institution string contains (case-insensitive substring) some member of
the university allow-list. -/
def specIsCaribbean (unis cAllow institutions countries : List String) : Bool :=
  (countries.any (fun c => cAllow.contains c)) ||
  (institutions.any (fun n => unis.any (fun u => pyContains n u)))

/-! ## The `auto.py` variant -/

namespace auto

/-- Static country allow-list of `auto.py` (no Cuba). -/
def CARIBBEAN_COUNTRIES : List String :=
  ["Jamaica", "Trinidad and Tobago", "Barbados", "Bahamas",
   "Antigua and Barbuda", "Saint Lucia", "Grenada", "Dominica",
   "Saint Vincent and the Grenadines", "Guyana", "Suriname",
   "Haiti", "Dominican Republic", "Belize",
   "Montserrat", "Saint Kitts and Nevis",
   "St. Lucia", "St. Vincent and the Grenadines",
   "St. Kitts and Nevis"]

/-- Static university allow-list of `auto.py`. -/
def UNIVERSITIES : List String :=
  ["University of Guyana",
   "University of the Netherlands Antilles",
   "Universidad de Puerto Rico",
   "University of Belize",
   "University of Trinidad and Tobago",
   "Caribbean Maritime University",
   "Anton de Kom University of Suriname",
   "University of Technology Jamaica",
   "Université d\x27État d\x27Haïti",
   "Universidad Autónoma de Santo Domingo",
   "University of the Bahamas",
   "University of the West Indies",
   "Universidad de la Habana"]

/-- Embeds `extract_openalex` of `auto.py`. -/
def extract_openalex (work : OpenAlexWork) : RowResult :=
  extractOpenalexCore UNIVERSITIES CARIBBEAN_COUNTRIES work

/-- Embeds `extract_crossref` of `auto.py`; the URL is
`f"https://doi.org/{work.get('DOI','')}"`. -/
def extract_crossref (work : CrossrefWork) : RowResult :=
  extractCrossrefCore UNIVERSITIES CARIBBEAN_COUNTRIES
    ("https://doi.org/" ++ work.DOI.getD "") work

/-- The DOI string `auto.py` computes: `str(row.get("DOI", "")).strip()`.
A pandas missing value stringifies to `"nan"` (`str(float("nan"))`). -/
def doiStrOf (c : Cell) : String :=
  match c with
  | Cell.na => "nan"
  | Cell.str s => pyStrip s

/-- Embeds `process_row` of `auto.py`, returning the 7-tuple (result plus
the cleaned DOI) together with the trace of network calls performed. -/
def process_row (net : Net) (row : Row) : (RowResult × String) × List Call :=
  let doi0 := doiStrOf row.DOI
  if doi0 = "" then ((manualResult, ""), [])
  else
    let doi := cleanDoi doi0
    match truthyWork (fetch_openalex_by_doi net doi) with
    | some w => ((extract_openalex w, doi), [Call.openalexDoi doi])
    | none =>
        match truthyCross (fetch_crossref_by_doi net doi) with
        | some w => ((extract_crossref w, doi), [Call.openalexDoi doi, Call.crossrefDoi doi])
        | none => ((manualResult, doi), [Call.openalexDoi doi, Call.crossrefDoi doi])

/-- One entry of the `manual_review` sheet of `auto.py`: note the `DOI`
field holds the cleaned DOI returned by `process_row`, not the input cell. -/
structure ManualEntry where
  Row_Number : Nat
  DOI : String
  Title : Cell
  Reason : String
deriving DecidableEq

/-- Embeds the manual-review accumulation of the `as_completed` loop of
`auto.py`: `perm` is the order in which the futures complete (a
permutation of the row indices). -/
def mainManualReview (net : Net) (rows : List Row) (perm : List Nat) : List ManualEntry :=
  perm.filterMap (fun i =>
    match rows[i]? with
    | none => none
    | some row =>
        let r := (process_row net row).1
        if r.1.caribbean = "Needs Manual Verification" then
          some ⟨i + 1, r.2, row.Title, "Not found in OpenAlex or Crossref"⟩
        else none)

end auto

/-! ## The `doi_search.py` variant -/

namespace doi_search

/-- Static country allow-list of `doi_search.py` (includes Cuba). -/
def CARIBBEAN_COUNTRIES : List String :=
  ["Jamaica", "Trinidad and Tobago", "Barbados", "Bahamas",
   "Antigua and Barbuda", "Saint Lucia", "Grenada", "Dominica",
   "Saint Vincent and the Grenadines", "Guyana", "Suriname",
   "Haiti", "Dominican Republic", "Belize",
   "Montserrat", "Saint Kitts and Nevis",
   "St. Lucia", "St. Vincent and the Grenadines",
   "St. Kitts and Nevis", "Cuba"]

/-- Static university allow-list of `doi_search.py`. -/
def UNIVERSITIES : List String :=
  ["University of Guyana",
   "University of the Netherlands Antilles",
   "Universidad de Puerto Rico",
   "University of Belize",
   "University of Trinidad and Tobago",
   "Caribbean Maritime University",
   "Anton de Kom University of Suriname",
   "University of Technology Jamaica",
   "Université d\x27État d\x27Haïti",
   "Universidad Autónoma de Santo Domingo",
   "University of the Bahamas",
   "University of the West Indies",
   "Universidad de la Habana",
   "University of Havana",
   "State University of Haiti",
   "University of Suriname",
   "Autonomous University of Santo Domingo"]

/-- Embeds `extract_openalex` of `doi_search.py`. -/
def extract_openalex (work : OpenAlexWork) : RowResult :=
  extractOpenalexCore UNIVERSITIES CARIBBEAN_COUNTRIES work

/-- Embeds `extract_crossref` of `doi_search.py`; the URL is
`f"https://doi.org/{doi}" if doi else ""`. -/
def extract_crossref (work : CrossrefWork) (doi : String) : RowResult :=
  extractCrossrefCore UNIVERSITIES CARIBBEAN_COUNTRIES
    (if doi ≠ "" then "https://doi.org/" ++ doi else "") work

/-- The DOI string `doi_search.py` computes: a pandas missing value is
normalized to `""` by the `pd.isna` guard, otherwise
`str(doi).strip()`. -/
def doiStrOf (c : Cell) : String :=
  match c with
  | Cell.na => ""
  | Cell.str s => pyStrip s

/-- Embeds `process_row` of `doi_search.py`, with its trace of network
calls. -/
def process_row (net : Net) (row : Row) : RowResult × List Call :=
  let doi0 := doiStrOf row.DOI
  if doi0 = "" then (manualResult, [])
  else
    let doi := cleanDoi doi0
    match truthyWork (fetch_openalex_by_doi net doi) with
    | some w => (extract_openalex w, [Call.openalexDoi doi])
    | none =>
        match truthyCross (fetch_crossref_by_doi net doi) with
        | some w => (extract_crossref w doi, [Call.openalexDoi doi, Call.crossrefDoi doi])
        | none => (manualResult, [Call.openalexDoi doi, Call.crossrefDoi doi])

/-- One entry of the `manual_review` sheet of `doi_search.py`: it records
the original `DOI` and `Title` cells of the input row plus the URL of the
row's result. -/
structure ManualEntry where
  Row_Number : Nat
  DOI : Cell
  Title : Cell
  URL : String
  Reason : String
deriving DecidableEq

/-- Embeds the manual-review accumulation of the `as_completed` loop of
`doi_search.py`; `perm` is the completion order of the futures. -/
def mainManualReview (net : Net) (rows : List Row) (perm : List Nat) : List ManualEntry :=
  perm.filterMap (fun i =>
    match rows[i]? with
    | none => none
    | some row =>
        let r := (process_row net row).1
        if r.caribbean = "Needs Manual Verification" then
          some ⟨i + 1, row.DOI, row.Title, r.url, "Not found in OpenAlex or Crossref"⟩
        else none)

end doi_search

/-! ## The `title_search.py` variant -/

namespace title_search

/-- Static country allow-list of `title_search.py` (same as
`doi_search.py`). -/
def CARIBBEAN_COUNTRIES : List String := doi_search.CARIBBEAN_COUNTRIES

/-- Static university allow-list of `title_search.py` (same as
`doi_search.py`). -/
def UNIVERSITIES : List String := doi_search.UNIVERSITIES

/-- Result record produced by `process_row` of `title_search.py`. -/
structure TitleRowResult where
  Institutions : Option String
  Countries : Option String
  Caribbean_Affiliated : Bool
  Manual_Review : String
deriving DecidableEq

/-- Embeds `extract_affiliation_info` of `title_search.py`.  Note: it
iterates over ALL authorships (no `[:10]` cap), joins the deduplicated
name sets with `"; "` without sorting (Python set iteration order is
unspecified; first-occurrence order is used here), and returns `None` for
an empty list. -/
def extract_affiliation_info (w : Option OpenAlexWork) :
    Option String × Option String × Bool :=
  match truthyWork w with
  | none => (none, none, false)
  | some work =>
      let insts := work.authorships.flatMap (fun a => a.institutions)
      let institutions := insts.filterMap (fun i => strOpt (i.display_name.getD ""))
      let countries := insts.filterMap (fun i => strOpt (i.country.getD ""))
      let caribbean_flag :=
        (insts.any (fun i =>
          let n := i.display_name.getD ""
          n ≠ "" && UNIVERSITIES.any (fun u => pyContains n u))) ||
        (insts.any (fun i =>
          let c := i.country.getD ""
          c ≠ "" && CARIBBEAN_COUNTRIES.contains c))
      ((if institutions.isEmpty then none
        else some ("; ".intercalate institutions.eraseDups)),
       (if countries.isEmpty then none
        else some ("; ".intercalate countries.eraseDups)),
       caribbean_flag)

/-- The Python truthiness of the `Title` cell, as the value handed to
`search_by_title`: a missing value (float `nan`) is truthy and stringifies
to `"nan"`; a string is truthy iff non-empty. -/
def titleVal (c : Cell) : Option String :=
  match c with
  | Cell.na => some "nan"
  | Cell.str s => if s = "" then none else some s

/-- Embeds `process_row` of `title_search.py`, with its trace of network
calls: at most one title search against OpenAlex, no other adapter. -/
def process_row (net : Net) (row : Row) : TitleRowResult × List Call :=
  match titleVal row.Title with
  | none =>
      let e := extract_affiliation_info none
      (⟨e.1, e.2.1, e.2.2, "YES"⟩, [])
  | some t =>
      let work := search_by_title net t
      let e := extract_affiliation_info work
      (⟨e.1, e.2.1, e.2.2, if (truthyWork work).isSome then "NO" else "YES"⟩,
       [Call.openalexTitle t])

/-- Embeds the fan-in of `main` in `title_search.py`: results are appended
in completion order (`perm`), NOT written back at the originating row
index. -/
def mainResults (net : Net) (rows : List Row) (perm : List Nat) : List TitleRowResult :=
  perm.filterMap (fun i =>
    match rows[i]? with
    | none => none
    | some row => some (process_row net row).1)

end title_search

/-! ## Helper lemmas -/

/-- Scanning a `filterMap strOpt` list with `any` is the same as scanning
the original list, guarded by non-emptiness — the shape of the flag
computation inside the extract loops. -/
theorem any_filterMap_strOpt {α : Type} (g : α → String) (l : List α) (p : String → Bool) :
    (l.filterMap (fun a => strOpt (g a))).any p
      = l.any (fun a => g a ≠ "" && p (g a)) := by
  induction l with
  | nil => rfl
  | cons a t ih =>
      rw [List.filterMap_cons]
      by_cases h : g a = ""
      · rw [show strOpt (g a) = none by simp [strOpt, h]]
        simp [h, ih]
      · rw [show strOpt (g a) = some (g a) by simp [strOpt, h]]
        simp [h, ih]

/-- Asking whether the substring-derived country list has a member of the
allow-list is the same as asking whether some name matches some allow-list
country (every derived country is an allow-list member by construction). -/
theorem any_contains_flatMap_filter (l C : List String) (q : String → String → Bool) :
    ((l.flatMap (fun n => C.filter (fun c => q n c))).any (fun c => C.contains c))
      = l.any (fun n => C.any (fun c => q n c)) := by
  rw [Bool.eq_iff_iff]
  simp only [List.any_eq_true, List.mem_flatMap, List.mem_filter, List.elem_iff]
  constructor
  · rintro ⟨c, ⟨n, hn, hc, hq⟩, -⟩
    exact ⟨n, hn, c, hc, hq⟩
  · rintro ⟨n, hn, c, hc, hq⟩
    exact ⟨c, ⟨n, hn, hc, hq⟩, hc⟩

/-- The `is_caribbean` flag of `extract_openalex` coincides with the
spec-level Matcher applied to the harvested institution and country
lists. -/
theorem oaFlag_eq_spec (U C : List String) (w : OpenAlexWork) :
    oaFlag U C w = specIsCaribbean U C (oaInstitutionsOf w) (oaCountriesOf w) := by
  unfold oaFlag specIsCaribbean oaInstitutionsOf oaCountriesOf
  rw [any_filterMap_strOpt, any_filterMap_strOpt, Bool.or_comm]

/-- The `is_caribbean` flag of `extract_crossref` coincides with the
spec-level Matcher applied to the harvested affiliation names and the
substring-derived country list. -/
theorem crFlag_eq_spec (U C : List String) (w : CrossrefWork) :
    crFlag U C w = specIsCaribbean U C (crAffNames w) (crCountriesOf C w) := by
  unfold crFlag specIsCaribbean crCountriesOf
  rw [any_contains_flatMap_filter, Bool.or_comm]

/-- Joining the empty list yields the empty string. -/
theorem intercalate_nil_eq_empty (sep : String) : sep.intercalate [] = "" := rfl

/-! ## Concrete fixtures for witnesses and counterexamples -/

/-- A network oracle on which every request raises a connection error. -/
def failNet : Net :=
  ⟨fun _ => HttpResp.exn, fun _ => HttpResp.exn, fun _ => HttpResp.exn⟩

/-- Discriminator for title-search calls in a trace. -/
def isTitleCall : Call → Bool
  | Call.openalexTitle _ => true
  | _ => false

/-! ## C3 — missing identifier short-circuits without network calls -/

/-- C3 (amended): in `doi_search.py` a row whose DOI cell is missing or
trims to blank returns the manual-review sentinel with an empty call
trace, whatever the title; in `auto.py` the same holds whenever the
stringified DOI is blank. -/
theorem c3_missing_identifier_short_circuit (net : Net) (row : Row) :
    (doi_search.doiStrOf row.DOI = "" →
      doi_search.process_row net row = (manualResult, []))
    ∧ (auto.doiStrOf row.DOI = "" →
      auto.process_row net row = ((manualResult, ""), [])) := by
  constructor
  · intro h
    unfold doi_search.process_row
    simp [h]
  · intro h
    unfold auto.process_row
    simp [h]

/-- Witness for C3: a whitespace-only DOI cell with a blank title yields
the sentinel and no network call in both scripts. -/
theorem c3_missing_identifier_short_circuit_witness :
    doi_search.process_row failNet ⟨Cell.str "  ", Cell.str ""⟩ = (manualResult, [])
      ∧ auto.process_row failNet ⟨Cell.str "  ", Cell.str ""⟩ = ((manualResult, ""), []) :=
  ⟨(c3_missing_identifier_short_circuit failNet ⟨Cell.str "  ", Cell.str ""⟩).1 (by decide),
   (c3_missing_identifier_short_circuit failNet ⟨Cell.str "  ", Cell.str ""⟩).2 (by decide)⟩

/-- Counterexample for C3 as stated: in `auto.py` a row with a missing
(`NaN`) DOI and missing title is stringified to the DOI `"nan"` and DOES
perform both adapter calls, instead of short-circuiting with no network
call. -/
theorem c3_counterexample_auto_nan_doi :
    (auto.process_row failNet ⟨Cell.na, Cell.na⟩).2
        = [Call.openalexDoi "nan", Call.crossrefDoi "nan"]
      ∧ [Call.openalexDoi "nan", Call.crossrefDoi "nan"] ≠ ([] : List Call) :=
  ⟨rfl, by decide⟩

/-! ## C5 — adapter failure modes all collapse to the NotFound value -/

/-- C5: for every DOI or title input and every network behaviour, a
raised connection error/timeout, a non-200 response, a malformed
(unparsable) payload, an absent `message` key (Crossref), or an empty
`results` list (title search) all make the adapter return `None`; the
adapters are total functions into an option value. -/
theorem c5_adapter_failures_collapse_to_none (net : Net) (doi q : String) :
    ((net.openalexDoi doi = HttpResp.exn
        ∨ ∃ s b, net.openalexDoi doi = HttpResp.ok s b ∧ (s ≠ 200 ∨ b = none)) →
      fetch_openalex_by_doi net doi = none)
    ∧ ((net.crossrefDoi doi = HttpResp.exn
        ∨ ∃ s b, net.crossrefDoi doi = HttpResp.ok s b
            ∧ (s ≠ 200 ∨ b = none ∨ b = some ⟨none⟩)) →
      fetch_crossref_by_doi net doi = none)
    ∧ ((net.openalexSearch q = HttpResp.exn
        ∨ ∃ s b, net.openalexSearch q = HttpResp.ok s b
            ∧ (s ≠ 200 ∨ b = none ∨ b = some ⟨[]⟩)) →
      search_by_title net q = none) := by
  refine ⟨?_, ?_, ?_⟩
  · rintro (h | ⟨s, b, h, h2⟩)
    · unfold fetch_openalex_by_doi
      rw [h]
    · unfold fetch_openalex_by_doi
      rw [h]
      rcases h2 with hs | hb
      · simp [hs]
      · simp [hb]
  · rintro (h | ⟨s, b, h, h2⟩)
    · unfold fetch_crossref_by_doi
      rw [h]
    · unfold fetch_crossref_by_doi
      rw [h]
      rcases h2 with hs | hb | hb
      · simp [hs]
      · simp [hb]
      · simp [hb]
  · rintro (h | ⟨s, b, h, h2⟩)
    · unfold search_by_title
      rw [h]
    · unfold search_by_title
      rw [h]
      rcases h2 with hs | hb | hb
      · simp [hs]
      · simp [hb]
      · simp [hb]

/-- Witness for C5: on the all-failing oracle the DOI adapters and the
title-search adapter all return `None`. -/
theorem c5_adapter_failures_collapse_to_none_witness :
    fetch_openalex_by_doi failNet "10.1/z" = none
      ∧ fetch_crossref_by_doi failNet "10.1/z" = none
      ∧ search_by_title failNet "Some Work" = none :=
  ⟨(c5_adapter_failures_collapse_to_none failNet "10.1/z" "Some Work").1 (Or.inl rfl),
   (c5_adapter_failures_collapse_to_none failNet "10.1/z" "Some Work").2.1 (Or.inl rfl),
   (c5_adapter_failures_collapse_to_none failNet "10.1/z" "Some Work").2.2 (Or.inl rfl)⟩

/-! ## C2 — no title-based retry after DOI failure -/

/-- C2 (amended): when the cleaned DOI is non-blank and both DOI lookups
come back falsy, `doi_search.py` returns the manual-review sentinel having
made exactly the two DOI calls and no title-based call, whatever the
title; title-based lookup exists only in `title_search.py`, whose resolver
makes exactly one title-search call against the primary adapter and never
consults the fallback. -/
theorem c2_no_title_retry (net : Net) (row : Row) (t : String) :
    (doi_search.doiStrOf row.DOI ≠ "" →
      truthyWork (fetch_openalex_by_doi net (cleanDoi (doi_search.doiStrOf row.DOI))) = none →
      truthyCross (fetch_crossref_by_doi net (cleanDoi (doi_search.doiStrOf row.DOI))) = none →
      doi_search.process_row net row
        = (manualResult,
           [Call.openalexDoi (cleanDoi (doi_search.doiStrOf row.DOI)),
            Call.crossrefDoi (cleanDoi (doi_search.doiStrOf row.DOI))]))
    ∧ (title_search.titleVal row.Title = some t →
      (title_search.process_row net row).2 = [Call.openalexTitle t]) := by
  constructor
  · intro h1 h2 h3
    unfold doi_search.process_row
    simp only [h2, h3]
    simp [h1]
  · intro h
    unfold title_search.process_row
    rw [h]

/-- Witness for C2 (amended): concrete row with a DOI and a title; both
DOI lookups fail, the sentinel is returned with only the two DOI calls in
the trace, and the title-search script makes exactly the one title call. -/
theorem c2_no_title_retry_witness :
    doi_search.process_row failNet ⟨Cell.str "10.2/y", Cell.str "T2"⟩
        = (manualResult, [Call.openalexDoi "10.2/y", Call.crossrefDoi "10.2/y"])
      ∧ (title_search.process_row failNet ⟨Cell.str "10.2/y", Cell.str "T2"⟩).2
        = [Call.openalexTitle "T2"] :=
  ⟨(c2_no_title_retry failNet ⟨Cell.str "10.2/y", Cell.str "T2"⟩ "T2").1 (by decide) rfl rfl,
   (c2_no_title_retry failNet ⟨Cell.str "10.2/y", Cell.str "T2"⟩ "T2").2 (by decide)⟩

/-- Counterexample for C2 as stated: a record whose DOI lookups both fail
and whose title is present is returned as the manual-review sentinel by
`doi_search.process_row` with a trace containing no title-based lookup at
all — the claimed title retry never happens. -/
theorem c2_counterexample_no_title_lookup :
    doi_search.process_row failNet ⟨Cell.str "10.1/x", Cell.str "Some Title"⟩
        = (manualResult, [Call.openalexDoi "10.1/x", Call.crossrefDoi "10.1/x"])
      ∧ ((doi_search.process_row failNet ⟨Cell.str "10.1/x", Cell.str "Some Title"⟩).2.all
          (fun c => !isTitleCall c)) = true := by
  constructor
  · rfl
  · rfl

/-! ## C6 — primary adapter success short-circuits the fallback -/

/-- C6: whenever the OpenAlex DOI lookup yields a truthy work, both
resolvers classify via `extract_openalex` and their trace is exactly the
single primary call — the Crossref fallback is never invoked. -/
theorem c6_primary_short_circuit (net : Net) (row : Row) (w : OpenAlexWork) :
    (doi_search.doiStrOf row.DOI ≠ "" →
      truthyWork (fetch_openalex_by_doi net (cleanDoi (doi_search.doiStrOf row.DOI))) = some w →
      doi_search.process_row net row
        = (doi_search.extract_openalex w,
           [Call.openalexDoi (cleanDoi (doi_search.doiStrOf row.DOI))]))
    ∧ (auto.doiStrOf row.DOI ≠ "" →
      truthyWork (fetch_openalex_by_doi net (cleanDoi (auto.doiStrOf row.DOI))) = some w →
      auto.process_row net row
        = ((auto.extract_openalex w, cleanDoi (auto.doiStrOf row.DOI)),
           [Call.openalexDoi (cleanDoi (auto.doiStrOf row.DOI))])) := by
  constructor
  · intro h1 h2
    unfold doi_search.process_row
    simp only [h2]
    simp [h1]
  · intro h1 h2
    unfold auto.process_row
    simp only [h2]
    simp [h1]

/-- A work with a title and URL but no author entries. -/
def emptyAuthorsWork : OpenAlexWork := ⟨true, some "T", some "u", []⟩

/-- An oracle whose OpenAlex DOI endpoint succeeds with
`emptyAuthorsWork` and whose other endpoints fail. -/
def oaNet : Net :=
  ⟨fun _ => HttpResp.ok 200 (some emptyAuthorsWork),
   fun _ => HttpResp.exn, fun _ => HttpResp.exn⟩

/-- Witness for C6: with a succeeding primary adapter both resolvers make
exactly one call. -/
theorem c6_primary_short_circuit_witness :
    doi_search.process_row oaNet ⟨Cell.str "10.1/w", Cell.na⟩
        = (doi_search.extract_openalex emptyAuthorsWork, [Call.openalexDoi "10.1/w"])
      ∧ auto.process_row oaNet ⟨Cell.str "10.1/w", Cell.na⟩
        = ((auto.extract_openalex emptyAuthorsWork, "10.1/w"), [Call.openalexDoi "10.1/w"]) :=
  ⟨(c6_primary_short_circuit oaNet ⟨Cell.str "10.1/w", Cell.na⟩ emptyAuthorsWork).1
      (by decide) rfl,
   (c6_primary_short_circuit oaNet ⟨Cell.str "10.1/w", Cell.na⟩ emptyAuthorsWork).2
      (by decide) rfl⟩

/-! ## C10 — found-but-authorless works are classified "No" -/

/-- C10: in `auto.py`, when the OpenAlex DOI lookup yields a truthy work
with no author entries, the row is classified — verdict `"No"`, empty
author/institution/country fields — and is not routed to the
manual-review sentinel. -/
theorem c10_found_but_empty_classified_no (net : Net) (row : Row) (w : OpenAlexWork) :
    auto.doiStrOf row.DOI ≠ "" →
    truthyWork (fetch_openalex_by_doi net (cleanDoi (auto.doiStrOf row.DOI))) = some w →
    w.authorships = [] →
    auto.process_row net row
      = ((⟨w.display_name.getD "", "", "", "", "No", w.canonical_url.getD ""⟩,
          cleanDoi (auto.doiStrOf row.DOI)),
         [Call.openalexDoi (cleanDoi (auto.doiStrOf row.DOI))]) := by
  intro h1 h2 hw
  unfold auto.process_row
  simp only [h2]
  simp [h1, auto.extract_openalex, extractOpenalexCore, oaAuthorsOf, oaInstsRaw,
    oaInstitutionsOf, oaCountriesOf, oaFlag, hw, pySortedSet, intercalate_nil_eq_empty]

/-- Witness for C10: the concrete authorless work is classified `"No"`
with empty list fields and a single-call trace. -/
theorem c10_found_but_empty_classified_no_witness :
    auto.process_row oaNet ⟨Cell.str "10.1/w", Cell.na⟩
      = ((⟨"T", "", "", "", "No", "u"⟩, "10.1/w"), [Call.openalexDoi "10.1/w"]) :=
  c10_found_but_empty_classified_no oaNet ⟨Cell.str "10.1/w", Cell.na⟩ emptyAuthorsWork
    (by decide) rfl rfl

/-! ## C4 — the Matcher characterization -/

/-- C4: the Matcher returns true iff some country string of the record
exactly equals an allow-list country or some institution string contains
(case-insensitively) an allow-list university, and false on two empty
sets; and the verdict computed by both extractors coincides with this
Matcher applied to the record's harvested institution and country
lists. -/
theorem c4_matcher_spec_correspondence :
    (∀ U C institutions countries : List String,
        specIsCaribbean U C institutions countries = true
          ↔ (∃ c ∈ countries, c ∈ C)
            ∨ ∃ n ∈ institutions, ∃ u ∈ U, pyContains n u = true)
    ∧ (∀ (U C : List String) (work : OpenAlexWork),
        (extractOpenalexCore U C work).caribbean = "Yes"
          ↔ specIsCaribbean U C (oaInstitutionsOf work) (oaCountriesOf work) = true)
    ∧ (∀ (U C : List String) (url : String) (work : CrossrefWork),
        (extractCrossrefCore U C url work).caribbean = "Yes"
          ↔ specIsCaribbean U C (crAffNames work) (crCountriesOf C work) = true)
    ∧ ∀ U C : List String, specIsCaribbean U C [] [] = false := by
  refine ⟨?_, ?_, ?_, ?_⟩
  · intro U C institutions countries
    simp [specIsCaribbean, List.any_eq_true, List.elem_iff]
  · intro U C work
    show (if oaFlag U C work then "Yes" else "No") = "Yes" ↔ _
    rw [oaFlag_eq_spec]
    cases h : specIsCaribbean U C (oaInstitutionsOf work) (oaCountriesOf work) <;>
      simp [h]
  · intro U C url work
    show (if crFlag U C work then "Yes" else "No") = "Yes" ↔ _
    rw [crFlag_eq_spec]
    cases h : specIsCaribbean U C (crAffNames work) (crCountriesOf C work) <;>
      simp [h]
  · intro U C
    rfl

/-! ## C7 — output list fields: dedup, sort, pipe-join -/

/-- A work whose author list is `["Jane Doe", "Jane Doe", "John Roe"]`. -/
def janeWork : OpenAlexWork :=
  ⟨true, some "W", none,
   [⟨"Jane Doe", []⟩, ⟨"Jane Doe", []⟩, ⟨"John Roe", []⟩]⟩

/-- C7 (amended): in the DOI scripts the author, institution and country
fields of both extractors are each the `" | "`-join of the sorted
duplicate-free list of the harvested strings — `pySortedSet` is sorted,
has no duplicates and has exactly the elements of its input — and the
spec's example evaluates as stated; `title_search.py` instead joins its
(unsorted) deduplicated fields with `"; "`. -/
theorem c7_fields_sorted_dedup_joined :
    (∀ l : List String,
        (pySortedSet l).Sorted pyStrLe
          ∧ (pySortedSet l).Nodup
          ∧ ∀ a, a ∈ pySortedSet l ↔ a ∈ l)
    ∧ (∀ (U C : List String) (work : OpenAlexWork),
        (extractOpenalexCore U C work).authors
            = " | ".intercalate (pySortedSet (oaAuthorsOf work))
          ∧ (extractOpenalexCore U C work).universities
            = " | ".intercalate (pySortedSet (oaInstitutionsOf work))
          ∧ (extractOpenalexCore U C work).countries
            = " | ".intercalate (pySortedSet (oaCountriesOf work)))
    ∧ (∀ (U C : List String) (url : String) (cw : CrossrefWork),
        (extractCrossrefCore U C url cw).authors
            = " | ".intercalate (pySortedSet (crAuthorsOf cw))
          ∧ (extractCrossrefCore U C url cw).universities
            = " | ".intercalate (pySortedSet (crAffNames cw))
          ∧ (extractCrossrefCore U C url cw).countries
            = " | ".intercalate (pySortedSet (crCountriesOf C cw)))
    ∧ (auto.extract_openalex janeWork).authors = "Jane Doe | John Roe" := by
  refine ⟨fun l => ⟨?_, ?_, fun a => ?_⟩, fun U C work => ⟨rfl, rfl, rfl⟩,
    fun U C url cw => ⟨rfl, rfl, rfl⟩, ?_⟩
  · exact List.sorted_insertionSort pyStrLe l.dedup
  · exact ((List.perm_insertionSort pyStrLe l.dedup).nodup_iff).mpr l.nodup_dedup
  · simp [pySortedSet, List.mem_insertionSort, List.mem_dedup]
  · decide

/-- A work carrying institutions `["B", "A"]` for its single author. -/
def twoInstWork : OpenAlexWork :=
  ⟨true, none, none, [⟨"X", [⟨some "B", none⟩, ⟨some "A", none⟩]⟩]⟩

/-- Counterexample for C7 as stated: `title_search.py` joins the
institution field with `"; "` and without sorting, so the output field is
not the `" | "`-joined sorted deduplicated list the claim requires. -/
theorem c7_counterexample_title_search_join :
    (title_search.extract_affiliation_info (some twoInstWork)).1 = some "B; A"
      ∧ some "B; A" ≠ some (" | ".intercalate (pySortedSet ["B", "A"])) := by
  constructor
  · rfl
  · decide

/-! ## C8 — the 10-author cap -/

/-- C8 (amended): the extractors of the DOI scripts depend only on the
first 10 author entries of a work; authors beyond the tenth never change
the output. -/
theorem c8_doi_scripts_author_cap (U C : List String) (w : OpenAlexWork)
    (cw : CrossrefWork) (url : String) :
    extractOpenalexCore U C w
        = extractOpenalexCore U C ⟨w.nonempty, w.display_name, w.canonical_url,
            w.authorships.take 10⟩
      ∧ extractCrossrefCore U C url cw
        = extractCrossrefCore U C url ⟨cw.nonempty, cw.title, cw.DOI, cw.author.take 10⟩ := by
  constructor <;>
    simp [extractOpenalexCore, extractCrossrefCore, oaAuthorsOf, oaInstsRaw,
      oaInstitutionsOf, oaCountriesOf, oaFlag, crAuthorsOf, crAffNames, crCountriesOf,
      crFlag, List.take_take]

/-- An eleventh authorship carrying the only Caribbean institution. -/
def eleventhAuthorWork : OpenAlexWork :=
  ⟨true, none, none,
   List.replicate 10 ⟨"A", []⟩ ++ [⟨"Z", [⟨some "University of Guyana", none⟩]⟩]⟩

/-- Counterexample for C8 as stated: `extract_affiliation_info` of
`title_search.py` has no author cap — the eleventh author's institution
changes both the output fields and the verdict. -/
theorem c8_counterexample_title_search_uncapped :
    title_search.extract_affiliation_info (some eleventhAuthorWork)
      ≠ title_search.extract_affiliation_info
          (some ⟨true, none, none, eleventhAuthorWork.authorships.take 10⟩) := by
  decide

/-! ## C9 — the manual-review sheet -/

/-- A guarded `some` equals `some e` exactly when the guard holds and `e`
is the guarded value. -/
theorem ite_some_eq_iff {β : Type} (c : Prop) [Decidable c] (x e : β) :
    ((if c then some x else none) = some e) ↔ (c ∧ e = x) := by
  by_cases h : c
  · simp [h, eq_comm]
  · simp [h]

/-- Membership in a fan-in accumulation over a completion order that
permutes the row indices is membership over the rows themselves. -/
theorem perm_filterMap_mem {β : Type} (rows : List Row) (perm : List Nat)
    (hperm : perm.Perm (List.range rows.length)) (g : Nat → Row → Option β) (b : β) :
    (b ∈ perm.filterMap (fun i =>
        match rows[i]? with
        | none => none
        | some row => g i row))
      ↔ ∃ i, ∃ h : i < rows.length, g i (rows.get ⟨i, h⟩) = some b := by
  rw [List.mem_filterMap]
  constructor
  · rintro ⟨i, hi, hf⟩
    have hlt : i < rows.length := List.mem_range.mp (hperm.mem_iff.mp hi)
    refine ⟨i, hlt, ?_⟩
    rw [List.getElem?_eq_getElem hlt] at hf
    simpa [List.get_eq_getElem] using hf
  · rintro ⟨i, hlt, hg⟩
    refine ⟨i, hperm.mem_iff.mpr (List.mem_range.mpr hlt), ?_⟩
    rw [List.getElem?_eq_getElem hlt]
    simpa [List.get_eq_getElem] using hg

/-- C9 (amended): over any completion order that is a permutation of the
row indices, both scripts produce a manual-review entry exactly for the
rows whose verdict is the manual-review sentinel, each carrying the
1-based row number, the original Title cell and the fixed reason string;
`doi_search.py` additionally records the original DOI cell and the result
URL, while `auto.py` records the normalized DOI returned by its
`process_row`. -/
theorem c9_manual_review_entries (net : Net) (rows : List Row) (perm : List Nat)
    (hperm : perm.Perm (List.range rows.length)) (e : doi_search.ManualEntry)
    (e2 : auto.ManualEntry) :
    (e ∈ doi_search.mainManualReview net rows perm
      ↔ ∃ i, ∃ h : i < rows.length,
          (doi_search.process_row net (rows.get ⟨i, h⟩)).1.caribbean
              = "Needs Manual Verification"
            ∧ e = ⟨i + 1, (rows.get ⟨i, h⟩).DOI, (rows.get ⟨i, h⟩).Title,
                   (doi_search.process_row net (rows.get ⟨i, h⟩)).1.url,
                   "Not found in OpenAlex or Crossref"⟩)
    ∧ (e2 ∈ auto.mainManualReview net rows perm
      ↔ ∃ i, ∃ h : i < rows.length,
          (auto.process_row net (rows.get ⟨i, h⟩)).1.1.caribbean
              = "Needs Manual Verification"
            ∧ e2 = ⟨i + 1, (auto.process_row net (rows.get ⟨i, h⟩)).1.2,
                    (rows.get ⟨i, h⟩).Title,
                    "Not found in OpenAlex or Crossref"⟩) := by
  constructor
  · unfold doi_search.mainManualReview
    rw [perm_filterMap_mem rows perm hperm]
    refine exists_congr fun i => exists_congr fun h => ?_
    exact ite_some_eq_iff _ _ _
  · unfold auto.mainManualReview
    rw [perm_filterMap_mem rows perm hperm]
    refine exists_congr fun i => exists_congr fun h => ?_
    exact ite_some_eq_iff _ _ _

/-- A one-row batch whose DOI resolves nowhere. -/
def unresolvedRows : List Row := [⟨Cell.str "10.9/q", Cell.str "QT"⟩]

/-- Witness for C9 (amended): the unresolved row's entry is in each
script's sheet with row number 1, the recorded DOI, the original Title,
and the fixed reason. -/
theorem c9_manual_review_entries_witness :
    ((⟨1, Cell.str "10.9/q", Cell.str "QT", "",
       "Not found in OpenAlex or Crossref"⟩ : doi_search.ManualEntry)
      ∈ doi_search.mainManualReview failNet unresolvedRows [0])
    ∧ ((⟨1, "10.9/q", Cell.str "QT",
        "Not found in OpenAlex or Crossref"⟩ : auto.ManualEntry)
      ∈ auto.mainManualReview failNet unresolvedRows [0]) :=
  ⟨(c9_manual_review_entries failNet unresolvedRows [0] (by decide)
      ⟨1, Cell.str "10.9/q", Cell.str "QT", "", "Not found in OpenAlex or Crossref"⟩
      ⟨1, "10.9/q", Cell.str "QT", "Not found in OpenAlex or Crossref"⟩).1.mpr
    ⟨0, by decide, by decide, by decide⟩,
   (c9_manual_review_entries failNet unresolvedRows [0] (by decide)
      ⟨1, Cell.str "10.9/q", Cell.str "QT", "", "Not found in OpenAlex or Crossref"⟩
      ⟨1, "10.9/q", Cell.str "QT", "Not found in OpenAlex or Crossref"⟩).2.mpr
    ⟨0, by decide, by decide, by decide⟩⟩

/-- Counterexample for C9 as stated: `auto.py` records the normalized
(trailing-punctuation-stripped) DOI in the manual-review entry, not the
original DOI of the input row. -/
theorem c9_counterexample_auto_normalized_doi :
    (auto.mainManualReview failNet [⟨Cell.str "10.1/x.,)", Cell.str "T"⟩] [0]).map
        (fun e => e.DOI) = ["10.1/x"]
      ∧ ("10.1/x" : String) ≠ "10.1/x.,)" := by
  constructor
  · rfl
  · decide

/-! ## C1 — fan-out executor and completion order -/

/-- A two-row batch for the title-search pipeline. -/
def twoTitleRows : List Row :=
  [⟨Cell.str "", Cell.str "A"⟩, ⟨Cell.str "", Cell.str "B"⟩]

/-- An oracle on which searching title `"A"` succeeds (an authorless
truthy work) and searching `"B"` raises. -/
def twoTitleNet : Net :=
  ⟨fun _ => HttpResp.exn, fun _ => HttpResp.exn,
   fun t => if t = "A" then HttpResp.ok 200 (some ⟨[⟨true, none, none, []⟩]⟩)
            else HttpResp.exn⟩

/-- C1 is violated by `title_search.py`: its `main` appends results in
completion order, so when row 1 completes before row 0 the output sequence
is not the input-order sequence of per-row results (which the identity
completion order does produce) — position 0 then holds row 1's result. -/
theorem c1_title_search_completion_order_misaligns :
    title_search.mainResults twoTitleNet twoTitleRows [1, 0]
        ≠ twoTitleRows.map (fun r => (title_search.process_row twoTitleNet r).1)
      ∧ title_search.mainResults twoTitleNet twoTitleRows [0, 1]
        = twoTitleRows.map (fun r => (title_search.process_row twoTitleNet r).1) := by
  constructor
  · decide
  · rfl
